import Mathlib

/-!
Verification of the project-handler layer of the linear-mcp server.

The handlers in src/core/types/tool.types.ts (class ProjectHandler) are
embedded as pure Lean functions.  Each handler takes the auth state, the
gateway client (as an oracle function giving the upstream result for each
possible call), and the raw argument object, and returns the outcome
(success envelope or raised error record) together with the ordered list
of gateway calls that were performed.

JavaScript dynamic-argument idioms are embedded as follows:
- a possibly-absent field is an `Option`;
- a field whose value must be an array, but may be absent or a non-array,
  is a `JsArrField` (absent and non-array values are observationally
  equivalent wherever the code only tests `Array.isArray` / truthiness);
- JS truthiness of a string option (`!x` on a possibly-missing string
  field) is `jsTruthyStr`: `none` and `some ""` are falsy.
-/

namespace LinearMCP

/-- JS truthiness of a possibly-missing string field: absent and the empty
string are falsy, every other string is truthy. -/
def jsTruthyStr : Option String → Bool
  | none => false
  | some s => s ≠ ""

/-- Substring containment test, used to embed `String.prototype.includes`. -/
def strContains (hay needle : String) : Bool :=
  decide (List.IsInfix needle.toList hay.toList)

/-- A JS field expected to hold an array: it may be absent (or undefined),
present but not an array, or an actual array. -/
inductive JsArrField (α : Type) where
  | missing
  | notArray
  | arr (xs : List α)
deriving DecidableEq, Repr

/-- Error taxonomy of the layer (spec section 7). -/
inductive ErrKind where
  | validation
  | auth
  | notFound
  | upstream
deriving DecidableEq, Repr

/-- A classified raised error: kind plus user-facing message. -/
structure ErrRecord where
  kind : ErrKind
  message : String
deriving DecidableEq, Repr

/-- Modelled from the spec: the Session/Auth Provider (auth.js, not part of
the handler sources) holds the current authentication state; `verifyAuth`
yields a gateway client when a valid session exists and raises AuthError
otherwise. -/
structure AuthState where
  hasValidSession : Bool
deriving DecidableEq, Repr

/-- Modelled from the spec: the AuthError raised by `verifyAuth` when no
valid session exists ("AuthError — no valid session; surfaced immediately,
never attempted against the upstream"). -/
def authError : ErrRecord :=
  ErrRecord.mk ErrKind.auth "No valid session"

/-- Modelled from the spec: `validateRequiredParams` of the base handler
(base.handler.js, not part of the handler sources): "for each declared
required key, fail with ValidationError (missing field name) if absent or
undefined". -/
def missingFieldError (field : String) : ErrRecord :=
  ErrRecord.mk ErrKind.validation ("missing field " ++ field)

/- ------------------------------------------------------------------ -/
/- Data carried by gateway results (graphql client payloads).          -/
/- ------------------------------------------------------------------ -/

/-- The created project inside a projectCreate payload. -/
structure CreatedProject where
  name : String
  url : String
deriving DecidableEq, Repr

/-- One created issue inside an issueBatchCreate payload. -/
structure CreatedIssue where
  identifier : String
  title : String
  url : String
deriving DecidableEq, Repr

/-- The projectCreate part of the createProjectWithIssues result. -/
structure ProjectCreatePayload where
  success : Bool
  project : CreatedProject
deriving DecidableEq, Repr

/-- The issueBatchCreate part of the createProjectWithIssues result. -/
structure IssueBatchCreatePayload where
  success : Bool
  issues : List CreatedIssue
deriving DecidableEq, Repr

/-- Result of the combined createProjectWithIssues gateway call; the
issueBatchCreate field may be absent from the payload. -/
structure CreateProjectWithIssuesResult where
  projectCreate : ProjectCreatePayload
  issueBatchCreate : Option IssueBatchCreatePayload
deriving DecidableEq, Repr

/-- An issue node as returned by searchIssues. -/
structure IssueNode where
  id : String
  title : String
deriving DecidableEq, Repr

/-- A project payload as returned by getProject; the issues slot is where
handleGetProject attaches separately fetched issues. -/
structure ProjectPayload where
  id : String
  name : String
  issues : Option (List IssueNode)
deriving DecidableEq, Repr

/-- Result of the getProject gateway call. -/
structure GetProjectResult where
  project : Option ProjectPayload
deriving DecidableEq, Repr

/-- Result of the searchIssues gateway call (`issuesResult.issues?.nodes`). -/
structure SearchIssuesResult where
  issues : Option (List IssueNode)
deriving DecidableEq, Repr

/-- A project node as returned by searchProjects; `state` may be absent. -/
structure ProjectNode where
  id : String
  name : String
  state : Option String
deriving DecidableEq, Repr

/-- The projects connection of the searchProjects result. -/
structure ProjectsConnection where
  nodes : List ProjectNode
deriving DecidableEq, Repr

/-- Result of the searchProjects gateway call. -/
structure SearchProjectsResult where
  projects : Option ProjectsConnection
deriving DecidableEq, Repr

/-- The raw value of the search teamIds argument.  The two source sites
that inspect it distinguish three observable shapes: `missing` covers an
absent field and every falsy value (undefined, null, the empty string,
0); `notArray` is a present truthy non-array value, carrying its
`.length` property when that is a number (a non-empty string carries its
length; a plain object usually carries none); `arr` is an actual array. -/
inductive TeamIdsArg where
  | missing
  | notArray (len : Option Nat)
  | arr (ids : List String)
deriving DecidableEq, Repr

/-- Whether the raw teamIds value is an actual array. -/
def TeamIdsArg.isArr : TeamIdsArg → Bool
  | TeamIdsArg.arr _ => true
  | _ => false

/-- The search validation test on teamIds
(`!teamIds || !Array.isArray(teamIds) || teamIds.length === 0`):
true unless the value is a non-empty array. -/
def notNonEmptyArray : TeamIdsArg → Bool
  | TeamIdsArg.arr (_ :: _) => false
  | _ => true

/-- The filter-builder test on teamIds
(`args.teamIds && args.teamIds.length > 0`): JS truthiness of the raw
value, then its length property compared with 0 (`undefined > 0` is
false).  This site does not test Array.isArray, so a truthy non-array
value with a positive length property also passes. -/
def truthyWithPositiveLength : TeamIdsArg → Bool
  | TeamIdsArg.missing => false
  | TeamIdsArg.notArray len => 0 < len.getD 0
  | TeamIdsArg.arr ids => 0 < ids.length

/-- The filter object handleSearchProjects builds for the gateway:
a `name contains` clause and a `team id in` clause, each optional; the
team clause carries the raw teamIds value the handler put there. -/
structure ProjectFilter where
  name : Option String
  team : Option TeamIdsArg
deriving DecidableEq, Repr

/- ------------------------------------------------------------------ -/
/- Argument objects.                                                   -/
/- ------------------------------------------------------------------ -/

/-- The `project` argument of createProjectWithIssues.  `teamIds` is
`none` when the field is absent or not an array (the handler tests
`!teamIds || !Array.isArray(teamIds)` and treats both the same). -/
structure ProjInput where
  name : String
  teamIds : Option (List String)
deriving DecidableEq, Repr

/-- One element of the `issues` argument.  `teamId` is `none` when the
field is absent; `some ""` is also falsy under `!issue.teamId`. -/
structure IssueInput where
  title : String
  description : String
  teamId : Option String
deriving DecidableEq, Repr

/-- Raw arguments of handleCreateProjectWithIssues. -/
structure CreateProjectWithIssuesArgs where
  project : Option ProjInput
  issues : JsArrField IssueInput
deriving DecidableEq, Repr

/-- Raw arguments of handleGetProject. -/
structure GetProjectArgs where
  id : Option String
  includeIssues : Option Bool
deriving DecidableEq, Repr

/-- Raw arguments of handleSearchProjects.  `teamIds` carries the raw
shape of the teamIds value (see `TeamIdsArg`). -/
structure SearchProjectsArgs where
  name : Option String
  teamIds : TeamIdsArg
  first : Option Nat
  includeArchived : Option Bool
deriving DecidableEq, Repr

/-- One gateway call, recorded in the order the handler performs them. -/
inductive GatewayCall where
  | createProjectWithIssues (project : ProjInput) (issues : List IssueInput)
  | getProject (id : String)
  | searchIssues (projectId : String)
  | searchProjects (filter : ProjectFilter) (first : Nat)
deriving DecidableEq, Repr

/-- The response envelope a handler returns: a plain text block
(createResponse) or a structured payload (createJsonResponse). -/
inductive BaseToolResponse where
  | text (s : String)
  | jsonProject (r : GetProjectResult)
  | jsonProjects (r : SearchProjectsResult)
deriving DecidableEq, Repr

/-- Outcome of a handler invocation: the success envelope or the raised
error record, paired with the gateway calls that were made. -/
def HandlerOutcome : Type :=
  Except ErrRecord BaseToolResponse × List GatewayCall

instance : DecidableEq (Except ErrRecord BaseToolResponse) := fun x y =>
  match x, y with
  | Except.ok a, Except.ok b =>
      if h : a = b then isTrue (by rw [h]) else isFalse (by simp [h])
  | Except.error a, Except.error b =>
      if h : a = b then isTrue (by rw [h]) else isFalse (by simp [h])
  | Except.ok _, Except.error _ => isFalse (by simp)
  | Except.error _, Except.ok _ => isFalse (by simp)

/- ------------------------------------------------------------------ -/
/- handleCreateProjectWithIssues                                       -/
/- ------------------------------------------------------------------ -/

/-- The project-level validation error message thrown when
`args.project.teamIds` is absent, not an array, or empty (verbatim from
the source, braces escaped). -/
def teamIdsErrorMsg : String :=
  "Project requires teamIds as an array with at least one team ID.\n" ++
  "Example:\n" ++
  "\x7b\n" ++
  "  project: \x7b\n" ++
  "    name: \"Project Name\",\n" ++
  "    teamIds: [\"team-id-1\"]\n" ++
  "  \x7d,\n" ++
  "  issues: [\x7b title: \"Issue Title\", teamId: \"team-id-1\" \x7d]\n" ++
  "\x7d"

/-- The validation error message thrown when `args.issues` is not an
array (verbatim from the source, braces escaped). -/
def issuesNotArrayMsg : String :=
  "Issues parameter must be an array of issue objects.\n" ++
  "Example: issues: [\x7b title: \"Issue Title\", teamId: \"team-id-1\" \x7d]"

/-- The per-item validation error message thrown for the issue at the
given 0-based index when it is missing its teamId (verbatim). -/
def issueIndexMsg (index : Nat) : String :=
  "Issue at index " ++ toString index ++ " is missing required teamId.\n" ++
  "Each issue must have a teamId that matches one of the project teamIds."

/-- The generic failure message thrown when the combined upstream result
reports a failed step. -/
def createFailedMsg : String :=
  "Failed to create project or issues"

/-- The `args.issues.forEach((issue, index) => ...)` loop of the source:
throws the indexed message at the first issue whose teamId is falsy. -/
def checkIssuesFrom (index : Nat) : List IssueInput → Except ErrRecord Unit
  | [] => Except.ok ()
  | issue :: rest =>
      if jsTruthyStr issue.teamId then checkIssuesFrom (index + 1) rest
      else Except.error (ErrRecord.mk ErrKind.validation (issueIndexMsg index))

/-- The success-text lines built after a successful combined call:
header, project name, project URL, and, when at least one issue was
created, a count line followed by one line per created issue. -/
def createSuccessText (result : CreateProjectWithIssuesResult) : String :=
  let p := result.projectCreate.project
  let createdIssues := (result.issueBatchCreate.map (fun b => b.issues)).getD []
  let base := ["Successfully created project with issues",
               "Project: " ++ p.name,
               "Project URL: " ++ p.url]
  let lines :=
    if createdIssues.length > 0 then
      base ++ (("Issues created: " ++ toString createdIssues.length) ::
        createdIssues.map (fun i =>
          "- " ++ i.identifier ++ ": " ++ i.title ++ " (" ++ i.url ++ ")"))
    else base
  String.intercalate "\n" lines

/-- Embedding of ProjectHandler.handleCreateProjectWithIssues. -/
def handleCreateProjectWithIssues (auth : AuthState)
    (gw : ProjInput → List IssueInput → CreateProjectWithIssuesResult)
    (args : CreateProjectWithIssuesArgs) : HandlerOutcome :=
  if auth.hasValidSession = false then
    (Except.error authError, [])
  else
    match args.project with
    | none => (Except.error (missingFieldError "project"), [])
    | some proj =>
      if args.issues = JsArrField.missing then
        (Except.error (missingFieldError "issues"), [])
      else
        match proj.teamIds with
        | none =>
            (Except.error (ErrRecord.mk ErrKind.validation teamIdsErrorMsg), [])
        | some [] =>
            (Except.error (ErrRecord.mk ErrKind.validation teamIdsErrorMsg), [])
        | some (t :: ts) =>
          match args.issues with
          | JsArrField.missing =>
              (Except.error (missingFieldError "issues"), [])
          | JsArrField.notArray =>
              (Except.error (ErrRecord.mk ErrKind.validation issuesNotArrayMsg), [])
          | JsArrField.arr issues =>
            match checkIssuesFrom 0 issues with
            | Except.error e => (Except.error e, [])
            | Except.ok _ =>
              let result := gw proj issues
              let calls := [GatewayCall.createProjectWithIssues proj issues]
              let batchFailed : Bool :=
                match result.issueBatchCreate with
                | some b => !b.success
                | none => false
              if !result.projectCreate.success || batchFailed then
                (Except.error (ErrRecord.mk ErrKind.upstream createFailedMsg), calls)
              else
                (Except.ok (BaseToolResponse.text (createSuccessText result)), calls)

/- ------------------------------------------------------------------ -/
/- handleGetProject                                                    -/
/- ------------------------------------------------------------------ -/

/-- Attaches separately fetched issue nodes onto the project payload when
present (`result.project.issues = issuesResult.issues.nodes`). -/
def attachIssues (result : GetProjectResult) (issuesResult : SearchIssuesResult) :
    GetProjectResult :=
  match result.project, issuesResult.issues with
  | some p, some nodes =>
      GetProjectResult.mk (some (ProjectPayload.mk p.id p.name (some nodes)))
  | _, _ => result

/-- Embedding of ProjectHandler.handleGetProject.  The getProject gateway
call may raise; a raised message containing one of the two recognized
not-found substrings is converted to a plain text response. -/
def handleGetProject (auth : AuthState)
    (gwGetProject : String → Except String GetProjectResult)
    (gwSearchIssues : String → SearchIssuesResult)
    (args : GetProjectArgs) : HandlerOutcome :=
  if auth.hasValidSession = false then
    (Except.error authError, [])
  else
    match args.id with
    | none => (Except.error (missingFieldError "id"), [])
    | some id =>
      let includeIssues := args.includeIssues.getD false
      match gwGetProject id with
      | Except.error msg =>
        if strContains msg "Entity not found" ∨
           strContains msg "Could not find referenced Project" then
          (Except.ok (BaseToolResponse.text
            ("Project with ID \"" ++ id ++ "\" does not exist")),
           [GatewayCall.getProject id])
        else
          (Except.error (ErrRecord.mk ErrKind.upstream msg),
           [GatewayCall.getProject id])
      | Except.ok result =>
        if includeIssues ∧ result.project.isSome then
          let issuesResult := gwSearchIssues id
          (Except.ok (BaseToolResponse.jsonProject (attachIssues result issuesResult)),
           [GatewayCall.getProject id, GatewayCall.searchIssues id])
        else
          (Except.ok (BaseToolResponse.jsonProject result),
           [GatewayCall.getProject id])

/- ------------------------------------------------------------------ -/
/- handleSearchProjects                                                -/
/- ------------------------------------------------------------------ -/

/-- The validation error message when neither a name nor a non-empty
teamIds array is provided (verbatim from the source). -/
def searchNeedsNameOrTeamIdsMsg : String :=
  "At least a project name or teamIds must be provided for search"

/-- The fixed set of terminal/archived state labels that the handler
excludes client-side. -/
def archivedLabels : List String :=
  ["Archived", "Canceled", "Completed"]

/-- Whether a project node is dropped by the archived-state filter:
its state (empty string when absent) is one of the fixed labels. -/
def isArchivedState (p : ProjectNode) : Bool :=
  archivedLabels.contains (p.state.getD "")

/-- The filter object the handler builds: a name clause when `args.name`
is truthy, a team clause when `args.teamIds` is truthy with a positive
length property (a non-empty array — or a truthy non-array with a
positive length, since this site skips Array.isArray).  The clause holds
the raw teamIds value. -/
def buildProjectFilter (args : SearchProjectsArgs) : ProjectFilter :=
  let nameClause := if jsTruthyStr args.name then args.name else none
  let teamClause :=
    if truthyWithPositiveLength args.teamIds then some args.teamIds else none
  ProjectFilter.mk nameClause teamClause

/-- `args.first || 50`: the number 0 is falsy in JS, so an explicit 0 also
falls back to the default of 50. -/
def effectiveFirst (args : SearchProjectsArgs) : Nat :=
  match args.first with
  | some n => if n = 0 then 50 else n
  | none => 50

/-- The client-side archived filter applied to the gateway result when
includeArchived is falsy. -/
def filterArchived (r : SearchProjectsResult) : SearchProjectsResult :=
  match r.projects with
  | some c =>
      SearchProjectsResult.mk
        (some (ProjectsConnection.mk (c.nodes.filter (fun p => !isArchivedState p))))
  | none => r

/-- The "no matches" text: names the searched project name when one was
given (verbatim template, including the trailing space when no name). -/
def noMatchesMsg (args : SearchProjectsArgs) : String :=
  "No projects found matching the search criteria " ++
  (match args.name with
   | some n => if n ≠ "" then "'" ++ n ++ "'" else ""
   | none => "")

/-- Embedding of ProjectHandler.handleSearchProjects. -/
def handleSearchProjects (auth : AuthState)
    (gw : ProjectFilter → Nat → SearchProjectsResult)
    (args : SearchProjectsArgs) : HandlerOutcome :=
  if auth.hasValidSession = false then
    (Except.error authError, [])
  else
    if jsTruthyStr args.name = false ∧
       notNonEmptyArray args.teamIds = true then
      (Except.error (ErrRecord.mk ErrKind.validation searchNeedsNameOrTeamIdsMsg), [])
    else
      let filter := buildProjectFilter args
      let first := effectiveFirst args
      let includeArchived := args.includeArchived.getD false
      let raw := gw filter first
      let result := if includeArchived then raw else filterArchived raw
      let calls := [GatewayCall.searchProjects filter first]
      match result.projects with
      | some c =>
        if c.nodes.length = 0 then
          (Except.ok (BaseToolResponse.text (noMatchesMsg args)), calls)
        else
          (Except.ok (BaseToolResponse.jsonProjects result), calls)
      | none =>
          (Except.ok (BaseToolResponse.jsonProjects result), calls)

/- ------------------------------------------------------------------ -/
/- Concrete fixtures used by witnesses and counterexamples.            -/
/- ------------------------------------------------------------------ -/

/-- Sample project argument (the spec's own scenario input). -/
def projInputFix : ProjInput := ProjInput.mk "Q1 Planning" (some ["team-1"])

/-- Sample valid issue argument. -/
def issueFix : IssueInput := IssueInput.mk "Setup" "init" (some "team-1")

/-- Sample issue argument missing its teamId. -/
def issueNoTeamFix : IssueInput := IssueInput.mk "Orphan" "no team" none

/-- Sample created project payload. -/
def createdProjFix : CreatedProject :=
  CreatedProject.mk "Q1 Planning" "https://linear.app/p/q1"

/-- Gateway oracle: both steps succeed, one issue created. -/
def gwCreateOkFix : ProjInput → List IssueInput → CreateProjectWithIssuesResult :=
  fun _ _ =>
    CreateProjectWithIssuesResult.mk (ProjectCreatePayload.mk true createdProjFix)
      (some (IssueBatchCreatePayload.mk true
        [CreatedIssue.mk "ABC-1" "Setup" "https://linear.app/i/1"]))

/-- Gateway oracle: project step succeeds, issue batch reports failure. -/
def gwCreatePartialFix : ProjInput → List IssueInput → CreateProjectWithIssuesResult :=
  fun _ _ =>
    CreateProjectWithIssuesResult.mk (ProjectCreatePayload.mk true createdProjFix)
      (some (IssueBatchCreatePayload.mk false []))

/-- Gateway oracle: project step itself reports failure. -/
def gwCreateProjFailFix : ProjInput → List IssueInput → CreateProjectWithIssuesResult :=
  fun _ _ =>
    CreateProjectWithIssuesResult.mk (ProjectCreatePayload.mk false createdProjFix)
      none

/-- Gateway oracle: project step succeeds and the result carries no
issueBatchCreate field at all. -/
def gwCreateNoBatchFix : ProjInput → List IssueInput → CreateProjectWithIssuesResult :=
  fun _ _ =>
    CreateProjectWithIssuesResult.mk (ProjectCreatePayload.mk true createdProjFix)
      none

/-- Gateway oracle for project search: one archived, one started, one
stateless project. -/
def gwSearchFix : ProjectFilter → Nat → SearchProjectsResult :=
  fun _ _ =>
    SearchProjectsResult.mk (some (ProjectsConnection.mk
      [ProjectNode.mk "p1" "Alpha" (some "Archived"),
       ProjectNode.mk "p2" "Beta" (some "Started"),
       ProjectNode.mk "p3" "Gamma" none]))

/-- Gateway oracle for project search: empty node list. -/
def gwSearchEmptyFix : ProjectFilter → Nat → SearchProjectsResult :=
  fun _ _ => SearchProjectsResult.mk (some (ProjectsConnection.mk []))

/-- Gateway oracle for getProject: raises an entity-not-found error. -/
def gwGetProjectNotFoundFix : String → Except String GetProjectResult :=
  fun _ => Except.error "Entity not found"

/-- Gateway oracle for searchIssues: no issues. -/
def gwSearchIssuesFix : String → SearchIssuesResult :=
  fun _ => SearchIssuesResult.mk (some [])

/-- The five validation-error messages handleCreateProjectWithIssues can
raise, each paired with the fact that it names its offending field. -/
def namesOffendingCreateField (msg : String) : Prop :=
  (msg = (missingFieldError "project").message ∧ strContains msg "project" = true) ∨
  (msg = (missingFieldError "issues").message ∧ strContains msg "issues" = true) ∨
  (msg = teamIdsErrorMsg ∧ strContains msg "teamIds" = true) ∨
  (msg = issuesNotArrayMsg ∧ strContains msg "Issues" = true) ∨
  (∃ i, msg = issueIndexMsg i ∧ strContains msg "teamId" = true)

/- ------------------------------------------------------------------ -/
/- Helper lemmas.                                                      -/
/- ------------------------------------------------------------------ -/

theorem strContains_append_right (a b n : String) (h : strContains b n = true) :
    strContains (a ++ b) n = true := by
  unfold strContains at h ⊢
  rw [decide_eq_true_eq] at h ⊢
  have hd : (a ++ b).toList = a.toList ++ b.toList := String.data_append a b
  rw [hd]
  exact h.trans (List.suffix_append a.toList b.toList).isInfix

theorem issueIndexMsg_contains_teamId (i : Nat) :
    strContains (issueIndexMsg i) "teamId" = true := by
  unfold issueIndexMsg
  apply strContains_append_right
  decide

theorem checkIssuesFrom_error (l : List IssueInput) : ∀ (k : Nat) (e : ErrRecord),
    checkIssuesFrom k l = Except.error e →
    ∃ i, e = ErrRecord.mk ErrKind.validation (issueIndexMsg i) := by
  induction l with
  | nil => intro k e h; simp [checkIssuesFrom] at h
  | cons x rest ih =>
    intro k e h
    by_cases hx : jsTruthyStr x.teamId = true
    · rw [checkIssuesFrom, if_pos hx] at h
      exact ih (k + 1) e h
    · rw [checkIssuesFrom, if_neg hx] at h
      exact ⟨k, (Except.error.injEq _ _).mp h |>.symm⟩

theorem checkIssuesFrom_first_bad (issues : List IssueInput) :
    ∀ (k i : Nat) (hi : i < issues.length),
    jsTruthyStr (issues.get ⟨i, hi⟩).teamId = false →
    (∀ j (hj : j < i), jsTruthyStr (issues.get ⟨j, Nat.lt_trans hj hi⟩).teamId = true) →
    checkIssuesFrom k issues =
      Except.error (ErrRecord.mk ErrKind.validation (issueIndexMsg (k + i))) := by
  induction issues with
  | nil => intro k i hi; exact absurd hi (by simp)
  | cons x rest ih =>
    intro k i hi hbad hmin
    cases i with
    | zero =>
      simp only [List.get] at hbad
      rw [checkIssuesFrom, if_neg (by simp [hbad]), Nat.add_zero]
    | succ n =>
      have hx : jsTruthyStr x.teamId = true := by
        have h0 := hmin 0 (Nat.succ_pos n)
        simpa using h0
      have hn : n < rest.length := Nat.lt_of_succ_lt_succ hi
      have hbadn : jsTruthyStr (rest.get ⟨n, hn⟩).teamId = false := by
        simpa using hbad
      have hminn : ∀ j (hj : j < n),
          jsTruthyStr (rest.get ⟨j, Nat.lt_trans hj hn⟩).teamId = true := by
        intro j hj
        have hs := hmin (j + 1) (Nat.succ_lt_succ hj)
        simpa using hs
      have hrec := ih (k + 1) n hn hbadn hminn
      have harith : k + 1 + n = k + (n + 1) := by omega
      rw [checkIssuesFrom, if_pos hx, hrec, harith]

/- ------------------------------------------------------------------ -/
/- Claim theorems.                                                     -/
/- ------------------------------------------------------------------ -/

/-- Claim C4: every handler invocation without a valid session fails with
AuthError, before any argument validation (the arguments are arbitrary,
possibly invalid) and before any gateway call (the call list is empty). -/
theorem c4_auth_error_short_circuits
    (auth : AuthState) (h : auth.hasValidSession = false)
    (gwC : ProjInput → List IssueInput → CreateProjectWithIssuesResult)
    (argsC : CreateProjectWithIssuesArgs)
    (gwG : String → Except String GetProjectResult)
    (gwI : String → SearchIssuesResult) (argsG : GetProjectArgs)
    (gwS : ProjectFilter → Nat → SearchProjectsResult) (argsS : SearchProjectsArgs) :
    handleCreateProjectWithIssues auth gwC argsC = (Except.error authError, []) ∧
    handleGetProject auth gwG gwI argsG = (Except.error authError, []) ∧
    handleSearchProjects auth gwS argsS = (Except.error authError, []) ∧
    authError.kind = ErrKind.auth := by
  refine ⟨?_, ?_, ?_, rfl⟩ <;>
    simp [handleCreateProjectWithIssues, handleGetProject, handleSearchProjects, h]

/-- Witness for C4 at a concrete unauthenticated state and concrete
(invalid) arguments. -/
theorem c4_witness :
    handleCreateProjectWithIssues (AuthState.mk false) gwCreateOkFix
        (CreateProjectWithIssuesArgs.mk none JsArrField.missing) =
      (Except.error authError, []) :=
  (c4_auth_error_short_circuits (AuthState.mk false) rfl gwCreateOkFix
    (CreateProjectWithIssuesArgs.mk none JsArrField.missing)
    gwGetProjectNotFoundFix gwSearchIssuesFix (GetProjectArgs.mk none none)
    gwSearchEmptyFix (SearchProjectsArgs.mk none TeamIdsArg.missing none none)).1

/-- Claim C3: a get-project whose lookup raises an error recognized as
entity-not-found (message containing "Entity not found" or "Could not
find referenced Project") returns the plain text
`Project with ID "<id>" does not exist` instead of raising. -/
theorem c3_get_project_not_found
    (auth : AuthState) (gwG : String → Except String GetProjectResult)
    (gwI : String → SearchIssuesResult) (args : GetProjectArgs) (id msg : String)
    (hauth : auth.hasValidSession = true)
    (hid : args.id = some id)
    (herr : gwG id = Except.error msg)
    (hmatch : strContains msg "Entity not found" = true ∨
              strContains msg "Could not find referenced Project" = true) :
    (handleGetProject auth gwG gwI args).1 =
      Except.ok (BaseToolResponse.text
        ("Project with ID \"" ++ id ++ "\" does not exist")) := by
  rcases hmatch with hm | hm <;>
    simp [handleGetProject, hauth, hid, herr, hm]

/-- Witness for C3 at a concrete missing identifier. -/
theorem c3_witness :
    (handleGetProject (AuthState.mk true) gwGetProjectNotFoundFix gwSearchIssuesFix
        (GetProjectArgs.mk (some "nope") none)).1 =
      Except.ok (BaseToolResponse.text
        ("Project with ID \"" ++ "nope" ++ "\" does not exist")) :=
  c3_get_project_not_found (AuthState.mk true) gwGetProjectNotFoundFix gwSearchIssuesFix
    (GetProjectArgs.mk (some "nope") none) "nope" "Entity not found"
    rfl rfl rfl (Or.inl (by decide))

/-- Claim C1 (amended): when the project step reports success and the
issue-batch step reports success=false, the operation fails, but with the
fixed generic message "Failed to create project or issues" — the error
does not name which step failed and does not include the created
project's identifier or URL. -/
theorem c1_partial_failure_generic_error
    (auth : AuthState)
    (gw : ProjInput → List IssueInput → CreateProjectWithIssuesResult)
    (args : CreateProjectWithIssuesArgs) (proj : ProjInput) (t : String)
    (ts : List String) (issues : List IssueInput) (b : IssueBatchCreatePayload)
    (hauth : auth.hasValidSession = true)
    (hproj : args.project = some proj)
    (hteam : proj.teamIds = some (t :: ts))
    (hissues : args.issues = JsArrField.arr issues)
    (hchk : checkIssuesFrom 0 issues = Except.ok ())
    (hsucc : (gw proj issues).projectCreate.success = true)
    (hbatch : (gw proj issues).issueBatchCreate = some b)
    (hfail : b.success = false) :
    handleCreateProjectWithIssues auth gw args =
      (Except.error (ErrRecord.mk ErrKind.upstream createFailedMsg),
       [GatewayCall.createProjectWithIssues proj issues]) := by
  simp [handleCreateProjectWithIssues, hauth, hproj, hteam, hissues, hchk,
    hsucc, hbatch, hfail]

/-- Witness for the amended C1 at a concrete partial-failure input. -/
theorem c1_witness :
    handleCreateProjectWithIssues (AuthState.mk true) gwCreatePartialFix
        (CreateProjectWithIssuesArgs.mk (some projInputFix) (JsArrField.arr [issueFix])) =
      (Except.error (ErrRecord.mk ErrKind.upstream createFailedMsg),
       [GatewayCall.createProjectWithIssues projInputFix [issueFix]]) :=
  c1_partial_failure_generic_error (AuthState.mk true) gwCreatePartialFix
    (CreateProjectWithIssuesArgs.mk (some projInputFix) (JsArrField.arr [issueFix]))
    projInputFix "team-1" [] [issueFix] (IssueBatchCreatePayload.mk false [])
    rfl rfl rfl rfl rfl rfl rfl rfl

/-- Counterexample to C1 as stated: at a concrete invocation where the
project step succeeded (the created project has URL
"https://linear.app/p/q1" and name "Q1 Planning") and the issue batch
reported success=false, the raised error message contains neither the
created project's URL nor its name, and is the very same message produced
when the project step itself fails — so it does not name which step
failed. -/
theorem c1_counterexample :
    (handleCreateProjectWithIssues (AuthState.mk true) gwCreatePartialFix
        (CreateProjectWithIssuesArgs.mk (some projInputFix) (JsArrField.arr [issueFix]))).1 =
      Except.error (ErrRecord.mk ErrKind.upstream createFailedMsg) ∧
    (gwCreatePartialFix projInputFix [issueFix]).projectCreate.success = true ∧
    (gwCreatePartialFix projInputFix [issueFix]).projectCreate.project.url =
      "https://linear.app/p/q1" ∧
    (gwCreatePartialFix projInputFix [issueFix]).issueBatchCreate =
      some (IssueBatchCreatePayload.mk false []) ∧
    strContains createFailedMsg "https://linear.app/p/q1" = false ∧
    strContains createFailedMsg "q1" = false ∧
    strContains createFailedMsg "Q1 Planning" = false ∧
    (handleCreateProjectWithIssues (AuthState.mk true) gwCreateProjFailFix
        (CreateProjectWithIssuesArgs.mk (some projInputFix) (JsArrField.arr [issueFix]))).1 =
      Except.error (ErrRecord.mk ErrKind.upstream createFailedMsg) := by
  decide

/-- Claim C10: when the upstream result reports projectCreate success and
carries no issueBatchCreate field at all, the handler returns a success
text with exactly the header, project-name and project-URL lines — no
"Issues created" line and no per-issue lines — and raises no error, even
when the issues argument was a non-empty list. -/
theorem c10_missing_batch_field_success
    (auth : AuthState)
    (gw : ProjInput → List IssueInput → CreateProjectWithIssuesResult)
    (args : CreateProjectWithIssuesArgs) (proj : ProjInput) (t : String)
    (ts : List String) (issues : List IssueInput) (p : CreatedProject)
    (hauth : auth.hasValidSession = true)
    (hproj : args.project = some proj)
    (hteam : proj.teamIds = some (t :: ts))
    (hissues : args.issues = JsArrField.arr issues)
    (hchk : checkIssuesFrom 0 issues = Except.ok ())
    (hgw : gw proj issues =
      CreateProjectWithIssuesResult.mk (ProjectCreatePayload.mk true p) none) :
    handleCreateProjectWithIssues auth gw args =
      (Except.ok (BaseToolResponse.text (String.intercalate "\n"
        ["Successfully created project with issues",
         "Project: " ++ p.name,
         "Project URL: " ++ p.url])),
       [GatewayCall.createProjectWithIssues proj issues]) := by
  simp [handleCreateProjectWithIssues, hauth, hproj, hteam, hissues, hchk, hgw,
    createSuccessText]

/-- Witness for C10 at a concrete input with a non-empty issues list. -/
theorem c10_witness :
    handleCreateProjectWithIssues (AuthState.mk true) gwCreateNoBatchFix
        (CreateProjectWithIssuesArgs.mk (some projInputFix) (JsArrField.arr [issueFix])) =
      (Except.ok (BaseToolResponse.text (String.intercalate "\n"
        ["Successfully created project with issues",
         "Project: " ++ createdProjFix.name,
         "Project URL: " ++ createdProjFix.url])),
       [GatewayCall.createProjectWithIssues projInputFix [issueFix]]) :=
  c10_missing_batch_field_success (AuthState.mk true) gwCreateNoBatchFix
    (CreateProjectWithIssuesArgs.mk (some projInputFix) (JsArrField.arr [issueFix]))
    projInputFix "team-1" [] [issueFix] createdProjFix
    rfl rfl rfl rfl rfl rfl

theorem handleSearchProjects_json_eq
    (auth : AuthState) (gw : ProjectFilter → Nat → SearchProjectsResult)
    (args : SearchProjectsArgs) (r : SearchProjectsResult)
    (hauth : auth.hasValidSession = true)
    (hval : ¬(jsTruthyStr args.name = false ∧
              notNonEmptyArray args.teamIds = true))
    (hr : (handleSearchProjects auth gw args).1 =
      Except.ok (BaseToolResponse.jsonProjects r)) :
    r = if args.includeArchived.getD false then
          gw (buildProjectFilter args) (effectiveFirst args)
        else filterArchived (gw (buildProjectFilter args) (effectiveFirst args)) := by
  simp only [handleSearchProjects, hauth, Bool.true_eq_false, if_false, hval] at hr
  split at hr
  · split at hr
    · simp at hr
    · simp at hr
      exact hr.symm
  · simp at hr
    exact hr.symm

theorem handleSearchProjects_calls
    (auth : AuthState) (gw : ProjectFilter → Nat → SearchProjectsResult)
    (args : SearchProjectsArgs)
    (hauth : auth.hasValidSession = true)
    (hval : ¬(jsTruthyStr args.name = false ∧
              notNonEmptyArray args.teamIds = true)) :
    (handleSearchProjects auth gw args).2 =
      [GatewayCall.searchProjects (buildProjectFilter args) (effectiveFirst args)] := by
  simp only [handleSearchProjects, hauth, Bool.true_eq_false, if_false, hval]
  split
  · split <;> rfl
  · rfl

/-- Claim C2: with includeArchived unset or false, every project whose
state is one of "Archived", "Canceled", "Completed" is removed from the
returned result set (the returned nodes are exactly the non-archived
nodes of the gateway result); with includeArchived: true, no project is
removed (the returned nodes are exactly the gateway result's nodes). -/
theorem c2_archived_filter
    (auth : AuthState) (gw : ProjectFilter → Nat → SearchProjectsResult)
    (args : SearchProjectsArgs) (c : ProjectsConnection)
    (hauth : auth.hasValidSession = true)
    (hval : ¬(jsTruthyStr args.name = false ∧
              notNonEmptyArray args.teamIds = true))
    (hproj : (gw (buildProjectFilter args) (effectiveFirst args)).projects = some c) :
    (args.includeArchived.getD false = false →
      ∀ r, (handleSearchProjects auth gw args).1 =
          Except.ok (BaseToolResponse.jsonProjects r) →
        r.projects = some (ProjectsConnection.mk
          (c.nodes.filter (fun p => !isArchivedState p)))) ∧
    (args.includeArchived = some true →
      ∀ r, (handleSearchProjects auth gw args).1 =
          Except.ok (BaseToolResponse.jsonProjects r) →
        r.projects = some c) := by
  constructor
  · intro hinc r hr
    have h := handleSearchProjects_json_eq auth gw args r hauth hval hr
    rw [hinc] at h
    simp only [Bool.false_eq_true, if_false] at h
    rw [h]
    simp [filterArchived, hproj]
  · intro hinc r hr
    have h := handleSearchProjects_json_eq auth gw args r hauth hval hr
    rw [hinc] at h
    simp only [Option.getD_some, if_true] at h
    rw [h]
    exact hproj

/-- Witness for C2 at a concrete search whose gateway result holds one
archived and two non-archived projects: the returned node list is the
archived-filtered original. -/
theorem c2_witness :
    (SearchProjectsResult.mk (some (ProjectsConnection.mk
        [ProjectNode.mk "p2" "Beta" (some "Started"),
         ProjectNode.mk "p3" "Gamma" none]))).projects =
      some (ProjectsConnection.mk
        (List.filter (fun p => !isArchivedState p)
          [ProjectNode.mk "p1" "Alpha" (some "Archived"),
           ProjectNode.mk "p2" "Beta" (some "Started"),
           ProjectNode.mk "p3" "Gamma" none])) :=
  (c2_archived_filter (AuthState.mk true) gwSearchFix
      (SearchProjectsArgs.mk (some "a") TeamIdsArg.missing none none)
      (ProjectsConnection.mk
        [ProjectNode.mk "p1" "Alpha" (some "Archived"),
         ProjectNode.mk "p2" "Beta" (some "Started"),
         ProjectNode.mk "p3" "Gamma" none])
      rfl (by decide) rfl).1 rfl
    (SearchProjectsResult.mk (some (ProjectsConnection.mk
        [ProjectNode.mk "p2" "Beta" (some "Started"),
         ProjectNode.mk "p3" "Gamma" none])))
    (by decide)

/-- Claim C6: a project search that yields zero results after the
client-side archived filtering returns the descriptive "no matches" text
response (which names the searched project name when one was given), not
a raised error. -/
theorem c6_no_matches_text
    (auth : AuthState) (gw : ProjectFilter → Nat → SearchProjectsResult)
    (args : SearchProjectsArgs) (c : ProjectsConnection)
    (hauth : auth.hasValidSession = true)
    (hval : ¬(jsTruthyStr args.name = false ∧
              notNonEmptyArray args.teamIds = true))
    (hproj : (gw (buildProjectFilter args) (effectiveFirst args)).projects = some c)
    (hlen : (if args.includeArchived.getD false then c.nodes
             else c.nodes.filter (fun p => !isArchivedState p)).length = 0) :
    handleSearchProjects auth gw args =
      (Except.ok (BaseToolResponse.text (noMatchesMsg args)),
       [GatewayCall.searchProjects (buildProjectFilter args) (effectiveFirst args)]) ∧
    (∀ n, args.name = some n → n ≠ "" →
      noMatchesMsg args =
        "No projects found matching the search criteria " ++ ("'" ++ n ++ "'")) := by
  constructor
  · cases hinc : args.includeArchived.getD false with
    | false =>
      rw [hinc] at hlen
      simp only [Bool.false_eq_true, if_false] at hlen
      simp [handleSearchProjects, hauth, hval, hinc, filterArchived, hproj,
        List.length_eq_zero.mp hlen]
    | true =>
      rw [hinc] at hlen
      simp only [if_true] at hlen
      simp [handleSearchProjects, hauth, hval, hinc, hproj,
        List.length_eq_zero.mp hlen]
  · intro n hn hne
    simp [noMatchesMsg, hn, hne]

/-- Witness for C6 at a concrete search with an empty gateway result. -/
theorem c6_witness :
    handleSearchProjects (AuthState.mk true) gwSearchEmptyFix
        (SearchProjectsArgs.mk (some "Zed") TeamIdsArg.missing none none) =
      (Except.ok (BaseToolResponse.text
        (noMatchesMsg (SearchProjectsArgs.mk (some "Zed") TeamIdsArg.missing none none))),
       [GatewayCall.searchProjects
         (buildProjectFilter (SearchProjectsArgs.mk (some "Zed") TeamIdsArg.missing none none))
         (effectiveFirst (SearchProjectsArgs.mk (some "Zed") TeamIdsArg.missing none none))]) :=
  (c6_no_matches_text (AuthState.mk true) gwSearchEmptyFix
    (SearchProjectsArgs.mk (some "Zed") TeamIdsArg.missing none none)
    (ProjectsConnection.mk []) rfl (by decide) rfl (by decide)).1

/-- Counterexample to C9 as stated: a concrete invocation providing a
name together with a truthy non-array teamIds value that has a positive
length property (e.g. the string "abc", length 3) passes validation on
the name alone (that check skips Array.isArray when the name is truthy),
yet the built filter contains a team clause holding that non-array value
— so the filter can contain a team clause although no non-empty teamIds
array was provided. -/
theorem c9_counterexample :
    (buildProjectFilter (SearchProjectsArgs.mk (some "x")
        (TeamIdsArg.notArray (some 3)) none none)).team =
      some (TeamIdsArg.notArray (some 3)) ∧
    (TeamIdsArg.notArray (some 3)).isArr = false ∧
    (handleSearchProjects (AuthState.mk true) gwSearchFix
        (SearchProjectsArgs.mk (some "x") (TeamIdsArg.notArray (some 3)) none none)).2 =
      [GatewayCall.searchProjects
        (ProjectFilter.mk (some "x") (some (TeamIdsArg.notArray (some 3)))) 50] := by
  decide

/-- Claim C9 (amended): the upstream filter contains a name clause only
when a name argument is provided (and then it is that name); it contains
a team clause exactly when the teamIds value is truthy with a positive
length property — a non-empty teamIds array, or (reachable only together
with a name) a truthy non-array value with a positive length — and the
clause then carries that raw value, which when it is an array is a
non-empty one; the default result limit of 50 is applied when the caller
omits one. -/
theorem c9_filter_and_default_limit
    (auth : AuthState) (gw : ProjectFilter → Nat → SearchProjectsResult)
    (args : SearchProjectsArgs)
    (hauth : auth.hasValidSession = true)
    (hval : ¬(jsTruthyStr args.name = false ∧
              notNonEmptyArray args.teamIds = true)) :
    (handleSearchProjects auth gw args).2 =
      [GatewayCall.searchProjects (buildProjectFilter args) (effectiveFirst args)] ∧
    ((buildProjectFilter args).name ≠ none →
      jsTruthyStr args.name = true ∧ (buildProjectFilter args).name = args.name) ∧
    ((buildProjectFilter args).team = none ↔
      truthyWithPositiveLength args.teamIds = false) ∧
    (∀ v, (buildProjectFilter args).team = some v →
      args.teamIds = v ∧ truthyWithPositiveLength v = true) ∧
    (∀ ids, (buildProjectFilter args).team = some (TeamIdsArg.arr ids) →
      args.teamIds = TeamIdsArg.arr ids ∧ ids ≠ []) ∧
    (args.first = none → effectiveFirst args = 50) := by
  refine ⟨handleSearchProjects_calls auth gw args hauth hval, ?_, ?_, ?_, ?_, ?_⟩
  · intro hname
    by_cases ht : jsTruthyStr args.name = true
    · exact ⟨ht, by simp [buildProjectFilter, ht]⟩
    · exact absurd (by simp [buildProjectFilter, ht]) hname
  · by_cases htw : truthyWithPositiveLength args.teamIds = true
    · simp [buildProjectFilter, htw]
    · have hf : truthyWithPositiveLength args.teamIds = false := by
        simpa using htw
      simp [buildProjectFilter, hf]
  · intro v hv
    by_cases htw : truthyWithPositiveLength args.teamIds = true
    · simp [buildProjectFilter, htw] at hv
      subst hv
      exact ⟨rfl, htw⟩
    · simp [buildProjectFilter, htw] at hv
  · intro ids hids
    by_cases htw : truthyWithPositiveLength args.teamIds = true
    · simp [buildProjectFilter, htw] at hids
      refine ⟨hids, ?_⟩
      rw [hids] at htw
      simp only [truthyWithPositiveLength] at htw
      exact List.length_pos.mp (by simpa using htw)
    · simp [buildProjectFilter, htw] at hids
  · intro hfirst
    simp [effectiveFirst, hfirst]

/-- Witness for the amended C9 at a concrete search with a name, a
non-empty teamIds array and no explicit limit. -/
theorem c9_witness :
    (handleSearchProjects (AuthState.mk true) gwSearchFix
        (SearchProjectsArgs.mk (some "Alpha") (TeamIdsArg.arr ["t1"]) none none)).2 =
      [GatewayCall.searchProjects
        (buildProjectFilter
          (SearchProjectsArgs.mk (some "Alpha") (TeamIdsArg.arr ["t1"]) none none))
        (effectiveFirst
          (SearchProjectsArgs.mk (some "Alpha") (TeamIdsArg.arr ["t1"]) none none))] :=
  (c9_filter_and_default_limit (AuthState.mk true) gwSearchFix
    (SearchProjectsArgs.mk (some "Alpha") (TeamIdsArg.arr ["t1"]) none none)
    rfl (by decide)).1

/-- Counterexample to C8 as stated: at a concrete invocation that does
provide a name (the name field is present, holding the empty string) and
no teamIds, the check does not pass — the handler fails with the
validation error. -/
theorem c8_counterexample :
    (SearchProjectsArgs.mk (some "") TeamIdsArg.missing none none).name ≠ none ∧
    handleSearchProjects (AuthState.mk true) gwSearchFix
        (SearchProjectsArgs.mk (some "") TeamIdsArg.missing none none) =
      (Except.error (ErrRecord.mk ErrKind.validation searchNeedsNameOrTeamIdsMsg),
       []) := by
  refine ⟨by simp, ?_⟩
  simp [handleSearchProjects, jsTruthyStr, notNonEmptyArray]

/-- Claim C8 (amended): the check requires at least one of a non-empty
name or a non-empty teamIds array (JS truthiness: an empty-string name
counts as absent).  When neither is given the handler fails with a
validation error whose message names both alternatives and makes no
gateway call; when a non-empty name or a non-empty teamIds array is
given, the check passes and the gateway is called. -/
theorem c8_need_name_or_teamIds
    (auth : AuthState) (gw : ProjectFilter → Nat → SearchProjectsResult)
    (args : SearchProjectsArgs)
    (hauth : auth.hasValidSession = true) :
    ((jsTruthyStr args.name = false ∧
        notNonEmptyArray args.teamIds = true) →
      handleSearchProjects auth gw args =
        (Except.error (ErrRecord.mk ErrKind.validation searchNeedsNameOrTeamIdsMsg),
         [])) ∧
    strContains searchNeedsNameOrTeamIdsMsg "name" = true ∧
    strContains searchNeedsNameOrTeamIdsMsg "teamIds" = true ∧
    ((jsTruthyStr args.name = true ∨
        (∃ h t, args.teamIds = TeamIdsArg.arr (h :: t))) →
      (handleSearchProjects auth gw args).2 =
        [GatewayCall.searchProjects (buildProjectFilter args) (effectiveFirst args)]) := by
  refine ⟨?_, by decide, by decide, ?_⟩
  · intro hcond
    simp only [handleSearchProjects, hauth, Bool.true_eq_false, if_false,
      if_pos hcond]
  · intro hsome
    have hval : ¬(jsTruthyStr args.name = false ∧
        notNonEmptyArray args.teamIds = true) := by
      rcases hsome with ht | ⟨h, t, hts⟩
      · simp [ht]
      · simp [hts, notNonEmptyArray]
    exact handleSearchProjects_calls auth gw args hauth hval

/-- Witness for the amended C8 at a concrete invocation providing only a
non-empty teamIds array. -/
theorem c8_witness :
    (handleSearchProjects (AuthState.mk true) gwSearchFix
        (SearchProjectsArgs.mk none (TeamIdsArg.arr ["t1"]) none none)).2 =
      [GatewayCall.searchProjects
        (buildProjectFilter (SearchProjectsArgs.mk none (TeamIdsArg.arr ["t1"]) none none))
        (effectiveFirst (SearchProjectsArgs.mk none (TeamIdsArg.arr ["t1"]) none none))] :=
  (c8_need_name_or_teamIds (AuthState.mk true) gwSearchFix
    (SearchProjectsArgs.mk none (TeamIdsArg.arr ["t1"]) none none) rfl).2.2.2
    (Or.inr ⟨"t1", [], rfl⟩)

set_option maxRecDepth 8192 in
/-- Counterexample to C7 as stated: a concrete invocation whose issues
list contains an item missing teamId (at smallest index 0), but whose
project-level teamIds validation also fails; validation then fails with
the project teamIds message, which does not contain the indexed
per-issue message. -/
theorem c7_counterexample :
    (handleCreateProjectWithIssues (AuthState.mk true) gwCreateOkFix
        (CreateProjectWithIssuesArgs.mk (some (ProjInput.mk "P" (some [])))
          (JsArrField.arr [issueNoTeamFix]))).1 =
      Except.error (ErrRecord.mk ErrKind.validation teamIdsErrorMsg) ∧
    jsTruthyStr issueNoTeamFix.teamId = false ∧
    strContains teamIdsErrorMsg "Issue at index 0 is missing required teamId" = false := by
  decide

/-- Claim C7 (amended): when the arguments pass the earlier project-level
checks (project present with a non-empty teamIds array, issues an array),
and i is the smallest index of an issue whose teamId is missing (falsy),
validation fails with the indexed message
`Issue at index <i> is missing required teamId` and no gateway call is
made. -/
theorem c7_first_missing_teamId_indexed
    (auth : AuthState)
    (gw : ProjInput → List IssueInput → CreateProjectWithIssuesResult)
    (args : CreateProjectWithIssuesArgs) (proj : ProjInput) (t : String)
    (ts : List String) (issues : List IssueInput) (i : Nat) (hi : i < issues.length)
    (hauth : auth.hasValidSession = true)
    (hproj : args.project = some proj)
    (hteam : proj.teamIds = some (t :: ts))
    (hissues : args.issues = JsArrField.arr issues)
    (hbad : jsTruthyStr (issues.get ⟨i, hi⟩).teamId = false)
    (hmin : ∀ j (hj : j < i),
      jsTruthyStr (issues.get ⟨j, Nat.lt_trans hj hi⟩).teamId = true) :
    handleCreateProjectWithIssues auth gw args =
      (Except.error (ErrRecord.mk ErrKind.validation (issueIndexMsg i)), []) ∧
    issueIndexMsg i =
      "Issue at index " ++ toString i ++ " is missing required teamId.\n" ++
      "Each issue must have a teamId that matches one of the project teamIds." := by
  have hchk := checkIssuesFrom_first_bad issues 0 i hi hbad hmin
  rw [Nat.zero_add] at hchk
  exact ⟨by simp [handleCreateProjectWithIssues, hauth, hproj, hteam, hissues, hchk],
    rfl⟩

/-- Witness for the amended C7: the issue at index 1 is the first one
missing its teamId. -/
theorem c7_witness :
    handleCreateProjectWithIssues (AuthState.mk true) gwCreateOkFix
        (CreateProjectWithIssuesArgs.mk (some projInputFix)
          (JsArrField.arr [issueFix, issueNoTeamFix])) =
      (Except.error (ErrRecord.mk ErrKind.validation (issueIndexMsg 1)), []) :=
  (c7_first_missing_teamId_indexed (AuthState.mk true) gwCreateOkFix
    (CreateProjectWithIssuesArgs.mk (some projInputFix)
      (JsArrField.arr [issueFix, issueNoTeamFix]))
    projInputFix "team-1" [] [issueFix, issueNoTeamFix] 1 one_lt_two
    rfl rfl rfl rfl (by decide)
    (fun j hj => by
      have hj0 : j = 0 := by omega
      subst hj0
      show jsTruthyStr issueFix.teamId = true
      decide)).1

/-- Claim C5: every validation failure (missing required field or
structural rule violation) in the three handlers yields a validation
error whose message names the offending field, with zero gateway calls
made. -/
theorem c5_validation_never_reaches_gateway
    (auth : AuthState)
    (hauth : auth.hasValidSession = true) :
    (∀ gw args e, (handleCreateProjectWithIssues auth gw args).1 = Except.error e →
      e.kind = ErrKind.validation →
      (handleCreateProjectWithIssues auth gw args).2 = [] ∧
      namesOffendingCreateField e.message) ∧
    (∀ gwG gwI args e, (handleGetProject auth gwG gwI args).1 = Except.error e →
      e.kind = ErrKind.validation →
      (handleGetProject auth gwG gwI args).2 = [] ∧
      e.message = (missingFieldError "id").message ∧
      strContains e.message "id" = true) ∧
    (∀ gw args e, (handleSearchProjects auth gw args).1 = Except.error e →
      e.kind = ErrKind.validation →
      (handleSearchProjects auth gw args).2 = [] ∧
      e.message = searchNeedsNameOrTeamIdsMsg ∧
      strContains e.message "name" = true ∧
      strContains e.message "teamIds" = true) := by
  refine ⟨?_, ?_, ?_⟩
  · intro gw args e herr hkind
    obtain ⟨projOpt, issuesField⟩ := args
    cases projOpt with
    | none =>
      simp [handleCreateProjectWithIssues, hauth] at herr
      subst herr
      exact ⟨by simp [handleCreateProjectWithIssues, hauth],
        Or.inl ⟨rfl, by decide⟩⟩
    | some proj =>
      rcases hteams : proj.teamIds with _ | ⟨_ | ⟨t, ts⟩⟩
      · cases issuesField with
        | missing =>
          simp [handleCreateProjectWithIssues, hauth] at herr
          subst herr
          exact ⟨by simp [handleCreateProjectWithIssues, hauth],
            Or.inr (Or.inl ⟨rfl, by decide⟩)⟩
        | notArray =>
          simp [handleCreateProjectWithIssues, hauth, hteams] at herr
          subst herr
          exact ⟨by simp [handleCreateProjectWithIssues, hauth, hteams],
            Or.inr (Or.inr (Or.inl ⟨rfl, by decide⟩))⟩
        | arr issues =>
          simp [handleCreateProjectWithIssues, hauth, hteams] at herr
          subst herr
          exact ⟨by simp [handleCreateProjectWithIssues, hauth, hteams],
            Or.inr (Or.inr (Or.inl ⟨rfl, by decide⟩))⟩
      · cases issuesField with
        | missing =>
          simp [handleCreateProjectWithIssues, hauth] at herr
          subst herr
          exact ⟨by simp [handleCreateProjectWithIssues, hauth],
            Or.inr (Or.inl ⟨rfl, by decide⟩)⟩
        | notArray =>
          simp [handleCreateProjectWithIssues, hauth, hteams] at herr
          subst herr
          exact ⟨by simp [handleCreateProjectWithIssues, hauth, hteams],
            Or.inr (Or.inr (Or.inl ⟨rfl, by decide⟩))⟩
        | arr issues =>
          simp [handleCreateProjectWithIssues, hauth, hteams] at herr
          subst herr
          exact ⟨by simp [handleCreateProjectWithIssues, hauth, hteams],
            Or.inr (Or.inr (Or.inl ⟨rfl, by decide⟩))⟩
      · cases issuesField with
        | missing =>
          simp [handleCreateProjectWithIssues, hauth] at herr
          subst herr
          exact ⟨by simp [handleCreateProjectWithIssues, hauth],
            Or.inr (Or.inl ⟨rfl, by decide⟩)⟩
        | notArray =>
          simp [handleCreateProjectWithIssues, hauth, hteams] at herr
          subst herr
          exact ⟨by simp [handleCreateProjectWithIssues, hauth, hteams],
            Or.inr (Or.inr (Or.inr (Or.inl ⟨rfl, by decide⟩)))⟩
        | arr issues =>
          rcases hchk : checkIssuesFrom 0 issues with e1 | u
          · obtain ⟨i, rfl⟩ := checkIssuesFrom_error issues 0 e1 hchk
            simp [handleCreateProjectWithIssues, hauth, hteams, hchk] at herr
            subst herr
            exact ⟨by simp [handleCreateProjectWithIssues, hauth, hteams, hchk],
              Or.inr (Or.inr (Or.inr (Or.inr
                ⟨i, rfl, issueIndexMsg_contains_teamId i⟩)))⟩
          · simp [handleCreateProjectWithIssues, hauth, hteams, hchk] at herr
            split at herr
            · simp at herr
              subst herr
              simp at hkind
            · simp at herr
  · intro gwG gwI args e herr hkind
    obtain ⟨idOpt, inc⟩ := args
    cases idOpt with
    | none =>
      simp [handleGetProject, hauth] at herr
      subst herr
      exact ⟨by simp [handleGetProject, hauth], rfl, by decide⟩
    | some id =>
      cases hg : gwG id with
      | error msg =>
        simp [handleGetProject, hauth, hg] at herr
        split at herr
        · simp at herr
        · simp at herr
          subst herr
          simp at hkind
      | ok res =>
        simp [handleGetProject, hauth, hg] at herr
        split at herr <;> simp at herr
  · intro gw args e herr hkind
    by_cases hv : jsTruthyStr args.name = false ∧
        notNonEmptyArray args.teamIds = true
    · simp [handleSearchProjects, hauth, hv] at herr
      subst herr
      exact ⟨by simp [handleSearchProjects, hauth, hv], rfl, by decide, by decide⟩
    · simp [handleSearchProjects, hauth, hv] at herr
      split at herr
      · split at herr <;> simp at herr
      · simp at herr

/-- Witness for C5 at a concrete invocation missing the required project
field. -/
theorem c5_witness :
    (handleCreateProjectWithIssues (AuthState.mk true) gwCreateOkFix
        (CreateProjectWithIssuesArgs.mk none (JsArrField.arr []))).2 = [] ∧
    namesOffendingCreateField (missingFieldError "project").message :=
  (c5_validation_never_reaches_gateway (AuthState.mk true) rfl).1 gwCreateOkFix
    (CreateProjectWithIssuesArgs.mk none (JsArrField.arr []))
    (missingFieldError "project") (by decide) rfl

end LinearMCP
